import Mathlib

/-!
Shallow embedding of `src/ProductRecommender_AI.py` (class `ProductRecommenderAI`).

Modelling conventions:
* Numbers (`quantity`, `price_usd`, and all derived metrics) are exact rationals `ℚ`;
  Python-float representation error is not modelled.  `round(·, 2)` / `DataFrame.round(2)`
  is modelled by `round2` (scale by 100, floor at half, unscale); numpy's
  half-to-even tie behaviour differs from this model only on exact .005 ties,
  which no statement below exercises.
* Raw cell values are `RawVal`: a number (`num`), a numeric string (`numStr`, a
  string that `pd.to_numeric` parses), a non-numeric string (`str`), or a null
  marker (`nan`).  pandas semantics used by the source:
  `isna` is true exactly on `nan`; comparing a string cell with `0` raises
  `TypeError`; `pd.to_numeric(errors := coerce)` maps `num q ↦ num q`,
  `numStr q ↦ num q`, and everything else to `nan`; `NaN`-valued terms are
  skipped by `.sum()` (modelled by letting them contribute `0`).
* `transaction_date` parseability by `pd.to_datetime` is external to the core,
  so each row carries the outcome as a boolean field `date_ok`; the whole-column
  call succeeds iff the column exists and every row parses.
* A `Table` is the pandas `DataFrame`: the list of column names plus the row list.
  Column access `df[c]` succeeds iff `c` is literally among the column names,
  else it raises `KeyError c` (modelled by `PyErr`).
* Raw-text format detection and the external CSV/JSON parsers are modelled by the
  `Input` type: each constructor is one outcome of the detection/parsing step at
  the top of `validate_data_format` (contains-`transaction_id` marker and
  `pd.read_csv` result; JSON object with / without a `transactions` key;
  `json.JSONDecodeError`; any other parse exception).
* Python string `.lower()` / `.strip()` are modelled for ASCII text by `pyLower`
  and `pyStrip`; string comparison (used by the `groupby` key sort) is
  code-point lexicographic, modelled by `strLt`.
* pandas `groupby(sort := true)` sorts the distinct `(product_id, product_name)`
  keys ascending (modelled by insertion into a sorted list, `groupKeys`), and
  `sort_values(ascending := False)` is a stable descending sort (numpy's
  introsort degenerates to stable insertion sort on the small frames at issue,
  and pandas' `nargsort` double reversal preserves tie order for descending
  sorts), modelled by the stable insertion sort `sortDesc`.
-/

/-- Exceptions that the modelled code can raise. -/
inductive PyErr where
  | keyError (key : String)
  | typeError
deriving DecidableEq

/-- A raw cell value as held by a pandas column. -/
inductive RawVal where
  | num (q : ℚ)
  | numStr (q : ℚ)
  | str (s : String)
  | nan
deriving DecidableEq

/-- One row of the transaction table (the seven required columns; extra columns
carry no information used by the code).  `date_ok` records whether
`pd.to_datetime` succeeds on this row's `transaction_date` value. -/
structure Row where
  transaction_id : String
  customer_id : String
  transaction_date : String
  date_ok : Bool
  product_id : String
  product_name : String
  quantity : RawVal
  price_usd : RawVal
deriving DecidableEq

/-- The pandas DataFrame: column names (in order) and the rows. -/
structure Table where
  cols : List String
  rows : List Row
deriving DecidableEq

/-- ASCII lower-casing of one character (model of Python `str.lower` on the
ASCII column names that occur here). -/
def lowerChar (c : Char) : Char :=
  if 65 ≤ c.toNat ∧ c.toNat ≤ 90 then Char.ofNat (c.toNat + 32) else c

/-- Model of Python `str.lower()`. -/
def pyLower (s : String) : String := ⟨s.data.map lowerChar⟩

/-- ASCII whitespace, as stripped by Python `str.strip()`. -/
def isSpaceChar (c : Char) : Bool :=
  c = ' ' || c = '\t' || c = '\n' || c = '\r' || c = '\x0b' || c = '\x0c'

/-- Model of Python `str.strip()`. -/
def pyStrip (s : String) : String :=
  ⟨((s.data.dropWhile isSpaceChar).reverse.dropWhile isSpaceChar).reverse⟩

/-- Code-point lexicographic order on character lists (Python `<` on `str`). -/
def lexLtChars : List Char → List Char → Bool
  | [], [] => false
  | [], _ :: _ => true
  | _ :: _, [] => false
  | a :: as, b :: bs =>
    if a.toNat < b.toNat then true
    else if b.toNat < a.toNat then false
    else lexLtChars as bs

/-- Code-point lexicographic order on strings (Python `<` on `str`). -/
def strLt (a b : String) : Bool := lexLtChars a.data b.data

/-- The `required_fields` list of `ProductRecommenderAI.__init__`. -/
def required_fields : List String :=
  ["transaction_id", "customer_id", "transaction_date",
   "product_id", "product_name", "quantity", "price_usd"]

/-- Column normalization of the CSV branch of `validate_data_format`:
`col.strip().lower()`. -/
def csvNormalize (t : Table) : Table :=
  { t with cols := t.cols.map (fun c => pyLower (pyStrip c)) }

/-- Column normalization of the JSON branch of `validate_data_format`:
`col.lower()` (no strip; asymmetry preserved from the source). -/
def jsonNormalize (t : Table) : Table :=
  { t with cols := t.cols.map (fun c => pyLower c) }

/-- Outcome of raw-text format detection and external parsing, as classified at
the top of `validate_data_format`: `csv e` means the text contains the
`transaction_id,`/`transaction_id\n` marker and `pd.read_csv` returned `e`;
`jsonTrans t` a parsed JSON object with a `transactions` key giving table `t`;
`jsonNoTrans` parsed JSON without that key; `jsonDecodeError` a
`json.JSONDecodeError`; `jsonOtherError m` any other exception reaching the
outer handler. -/
inductive Input where
  | csv (parsed : Except String Table)
  | jsonTrans (t : Table)
  | jsonNoTrans
  | jsonDecodeError
  | jsonOtherError (msg : String)

/-- `validate_data_format` (source lines 58-85).  The Python triple
`(ok, message, df-or-None)` is collapsed into `Except`: `ok = True` always comes
with a DataFrame and `ok = False` with `None`. -/
def validate_data_format (inp : Input) : Except String Table :=
  match inp with
  | .csv (.ok t) => .ok (csvNormalize t)
  | .csv (.error e) => .error ("ERROR: Data processing failed. " ++ e)
  | .jsonTrans t => .ok (jsonNormalize t)
  | .jsonNoTrans => .error "ERROR: Invalid JSON structure. Must contain 'transactions' key."
  | .jsonDecodeError => .error "ERROR: Invalid data format. Please provide your data in CSV or JSON format."
  | .jsonOtherError e => .error ("ERROR: Data processing failed. " ++ e)

/-- Is the cell a Python string object (which makes `series <= 0` raise)? -/
def isStrVal : RawVal → Bool
  | .numStr _ => true
  | .str _ => true
  | _ => false

/-- Pre-coercion invalidity test of `format_validation_report`:
`isna(v) or v <= 0` on a column that raised no `TypeError`. -/
def rawInvalid : RawVal → Bool
  | .num q => decide (q ≤ 0)
  | .nan => true
  | _ => false

/-- `pd.to_numeric(·, errors := coerce)` on one cell. -/
def coerceVal : RawVal → RawVal
  | .num q => .num q
  | .numStr q => .num q
  | _ => .nan

/-- Post-coercion invalidity test of `validate_data_types`:
`isna(v) or v <= 0` (only `num`/`nan` occur after coercion). -/
def badVal : RawVal → Bool
  | .num q => decide (q ≤ 0)
  | _ => true

/-- The exact 50-dash separator `"-" * 50`. -/
def dashes50 : String :=
  "--------------------------------------------------"

/-- Present/missing marker of the Required Fields Check
(`field.lower() in {col.lower().strip()}`). -/
def field_status (t : Table) (f : String) : String :=
  if (t.cols.map (fun c => pyStrip (pyLower c))).contains (pyLower f)
  then "✓ Present" else "✗ Missing"

/-- Number of rows failing the pre-coercion quantity check. -/
def invalid_quantity_count (t : Table) : ℕ :=
  (t.rows.filter (fun r => rawInvalid r.quantity)).length

/-- Number of rows failing the pre-coercion price check. -/
def invalid_price_count (t : Table) : ℕ :=
  (t.rows.filter (fun r => rawInvalid r.price_usd)).length

/-- Quantity line of the Data Type Validation block. -/
def quantity_status (t : Table) : String :=
  if invalid_quantity_count t = 0 then "✓ Valid"
  else "✗ Found " ++ toString (invalid_quantity_count t) ++ " invalid records"

/-- Price line of the Data Type Validation block. -/
def price_status (t : Table) : String :=
  if invalid_price_count t = 0 then "✓ Valid"
  else "✗ Found " ++ toString (invalid_price_count t) ++ " invalid records"

/-- Date line of the structural report: `pd.to_datetime(df[transaction_date])`
inside `try`/bare `except`; it succeeds iff the column exists and every row's
value parses. -/
def date_status (t : Table) : String :=
  if t.cols.contains "transaction_date" && t.rows.all (fun r => r.date_ok)
  then "✓ Valid" else "✗ Invalid date format found"

/-- The report lines built by `format_validation_report` when no exception is
raised (source lines 16-56). -/
def validation_lines (t : Table) : List String :=
  ["Data Validation Report:", dashes50,
   "1. Data Structure Check:",
   "   - Number of records: " ++ toString t.rows.length,
   "   - Number of columns: " ++ toString t.cols.length,
   "\n2. Required Fields Check:"]
  ++ required_fields.map (fun f => "   - " ++ f ++ ": " ++ field_status t f)
  ++ ["\n3. Data Type Validation:",
      "   - Quantity (positive integers): " ++ quantity_status t,
      "   - Price (positive numbers): " ++ price_status t,
      "   - Date format: " ++ date_status t,
      "\n" ++ dashes50]

/-- `format_validation_report` (source lines 16-56).  The uncaught exceptions it
can raise appear in order: `df[quantity]` raises `KeyError` when the column is
absent, comparing a string-bearing quantity column with `0` raises `TypeError`,
then likewise for `price_usd`.  The date block is inside `try`/`except`. -/
def format_validation_report (t : Table) : Except PyErr (List String) :=
  if !(t.cols.contains "quantity") then .error (.keyError "quantity")
  else if t.rows.any (fun r => isStrVal r.quantity) then .error .typeError
  else if !(t.cols.contains "price_usd") then .error (.keyError "price_usd")
  else if t.rows.any (fun r => isStrVal r.price_usd) then .error .typeError
  else .ok (validation_lines t)

/-- `validate_required_fields` (source lines 87-98). -/
def validate_required_fields (t : Table) : Bool × String :=
  let missing := required_fields.filter
    (fun f => !((t.cols.map (fun c => pyStrip (pyLower c))).contains (pyLower f)))
  if missing.isEmpty then (true, "Success")
  else (false, "ERROR: Missing required fields: " ++ String.intercalate ", " missing ++ ".")

/-- Coerce the `quantity` column in place. -/
def coerceQuantity (t : Table) : Table :=
  { t with rows := t.rows.map (fun r => { r with quantity := coerceVal r.quantity }) }

/-- Coerce the `price_usd` column in place. -/
def coercePrice (t : Table) : Table :=
  { t with rows := t.rows.map (fun r => { r with price_usd := coerceVal r.price_usd }) }

/-- `validate_data_types` (source lines 100-119).  It mutates the DataFrame
(the coerced table is the third component); a missing column raises `KeyError`,
caught by the function's own handler, which yields the generic message with
`str(e)` appended (Python renders `str(KeyError(k))` as `'k'` in quotes). -/
def validate_data_types (t : Table) : Bool × String × Table :=
  if t.cols.contains "quantity" then
    let t1 := coerceQuantity t
    if t1.cols.contains "price_usd" then
      let t2 := coercePrice t1
      if t2.rows.any (fun r => badVal r.quantity) then
        (false, "ERROR: Invalid value for field(s): quantity. Must be positive integer.", t2)
      else if t2.rows.any (fun r => badVal r.price_usd) then
        (false, "ERROR: Invalid value for field(s): price_usd. Must be positive number.", t2)
      else (true, "Success", t2)
    else (false, "ERROR: Data type validation failed. 'price_usd'", t1)
  else (false, "ERROR: Data type validation failed. 'quantity'", t)

/-- Numeric value of a coerced cell as used by pandas sums: `NaN` terms are
skipped by `.sum()`, i.e. they contribute `0`. -/
def qVal : RawVal → ℚ
  | .num q => q
  | _ => 0

/-- Grouping key of a row: the `(product_id, product_name)` pair. -/
def rowKey (r : Row) : String × String := (r.product_id, r.product_name)

/-- Python `<` on key tuples: lexicographic over code-point string order. -/
def keyLt (a b : String × String) : Bool :=
  strLt a.1 b.1 || (a.1 == b.1 && strLt a.2 b.2)

/-- Insert a key into an ascending sorted duplicate-free key list. -/
def insertKey (k : String × String) :
    List (String × String) → List (String × String)
  | [] => [k]
  | x :: xs =>
    if k = x then x :: xs
    else if keyLt k x then k :: x :: xs
    else x :: insertKey k xs

/-- The distinct group keys in the ascending order produced by
`groupby([product_id, product_name], sort := true)`. -/
def groupKeys (t : Table) : List (String × String) :=
  t.rows.foldl (fun ks r => insertKey (rowKey r) ks) []

/-- Group aggregate `quantity: sum` over the rows of one group. -/
def qtySum (t : Table) (pid pname : String) : ℚ :=
  ((t.rows.filter (fun r => r.product_id == pid && r.product_name == pname)).map
    (fun r => qVal r.quantity)).sum

/-- Group aggregate `(df.loc[x.index, quantity] * x).sum()` over the rows of one
group: the per-row products `quantity * price_usd`, summed. -/
def spendSum (t : Table) (pid pname : String) : ℚ :=
  ((t.rows.filter (fun r => r.product_id == pid && r.product_name == pname)).map
    (fun r => qVal r.quantity * qVal r.price_usd)).sum

/-- One row of the `product_metrics` frame. -/
structure Metric where
  product_id : String
  product_name : String
  total_quantity : ℚ
  total_spend : ℚ
  importance_score : ℚ
deriving DecidableEq

/-- The metrics row for one group key, with
`importance_score = total_quantity * 0.5 + total_spend * 0.5` (source 124-135). -/
def metricFor (t : Table) (k : String × String) : Metric :=
  { product_id := k.1, product_name := k.2,
    total_quantity := qtySum t k.1 k.2,
    total_spend := spendSum t k.1 k.2,
    importance_score := qtySum t k.1 k.2 * 0.5 + spendSum t k.1 k.2 * 0.5 }

/-- Model of `round(x, 2)` on the exact value: scale by 100, round, unscale. -/
def round2 (x : ℚ) : ℚ := ((⌊x * 100 + 1 / 2⌋ : ℤ) : ℚ) / 100

/-- `DataFrame.round(2)` on one metrics row (numeric columns only). -/
def roundEntry (p : ℕ × Metric) : ℕ × Metric :=
  (p.1, { p.2 with
    total_quantity := round2 p.2.total_quantity,
    total_spend := round2 p.2.total_spend,
    importance_score := round2 p.2.importance_score })

/-- Stable insert for the descending sort: move past `y` only while `y` scores
strictly higher, so earlier elements stay ahead of equal-scoring later ones. -/
def insertDesc (x : ℕ × Metric) : List (ℕ × Metric) → List (ℕ × Metric)
  | [] => [x]
  | y :: ys =>
    if x.2.importance_score < y.2.importance_score then y :: insertDesc x ys
    else x :: y :: ys

/-- Stable descending sort by `importance_score`
(`sort_values(importance_score, ascending := False)`). -/
def sortDesc (l : List (ℕ × Metric)) : List (ℕ × Metric) :=
  l.foldr insertDesc []

/-- The sorted, still unrounded metrics frame, each row paired with the pandas
index label it received from `reset_index()` (its position in groupby key
order); `sort_values` permutes rows but keeps the labels. -/
def rankedRaw (t : Table) : List (ℕ × Metric) :=
  sortDesc (List.enum ((groupKeys t).map (metricFor t)))

/-- `calculate_metrics` (source lines 121-141): group, aggregate, score, sort
descending, then round every numeric column to 2 decimals. -/
def calculate_metrics (t : Table) : List (ℕ × Metric) :=
  (rankedRaw t).map roundEntry

/-- Python `int(·)`: truncation toward zero. -/
def pyInt (q : ℚ) : ℤ := if 0 ≤ q then ⌊q⌋ else -⌊-q⌋

/-- Integer cents of a value, rounding at half (model of `format(x, .2f)`). -/
def cents (q : ℚ) : ℤ := ⌊q * 100 + 1 / 2⌋

/-- Two-digit zero-padded rendering of `n < 100`. -/
def twoDigits (n : ℕ) : String :=
  if n < 10 then "0" ++ toString n else toString n

/-- Model of the Python format spec `.2f`. -/
def fmt2 (q : ℚ) : String :=
  (if cents q < 0 then "-" else "")
    ++ toString ((cents q).natAbs / 100) ++ "." ++ twoDigits ((cents q).natAbs % 100)

/-- Three-digit zero-padded rendering of `n < 1000`. -/
def threeDigits (n : ℕ) : String :=
  if n < 10 then "00" ++ toString n
  else if n < 100 then "0" ++ toString n
  else toString n

/-- Thousands grouping with fuel (structural recursion so it kernel-reduces). -/
def commaNatAux : ℕ → ℕ → String
  | 0, n => toString n
  | fuel + 1, n =>
    if n < 1000 then toString n
    else commaNatAux fuel (n / 1000) ++ "," ++ threeDigits (n % 1000)

/-- Decimal rendering of a natural number with `,` thousands separators. -/
def commaNat (n : ℕ) : String := commaNatAux n n

/-- Model of the Python format spec `,.2f`. -/
def fmtComma2 (q : ℚ) : String :=
  (if cents q < 0 then "-" else "")
    ++ commaNat ((cents q).natAbs / 100) ++ "." ++ twoDigits ((cents q).natAbs % 100)

/-- The rows selected by `format_transaction_details`: filtered by
`product_id` alone (source line 145). -/
def txnRows (t : Table) (pid : String) : List Row :=
  t.rows.filter (fun r => r.product_id == pid)

/-- One `Transaction <id>: <qty> units × $<price> = $<qty*price>` line. -/
def txn_line (r : Row) : String :=
  "Transaction " ++ r.transaction_id ++ ": "
    ++ toString (pyInt (qVal r.quantity)) ++ " units × $" ++ fmt2 (qVal r.price_usd)
    ++ " = $" ++ fmt2 (qVal r.quantity * qVal r.price_usd)

/-- `format_transaction_details` (source lines 143-153). -/
def format_transaction_details (t : Table) (pid : String) : String :=
  String.intercalate "\n" ((txnRows t pid).map txn_line)

/-- The `Rank <idx + 1>: <name>` line printed for a metrics row: `iterrows`
yields the pandas index label, and the code uses `label + 1` as the rank. -/
def rank_line (p : ℕ × Metric) : String :=
  "\nRank " ++ toString (p.1 + 1) ++ ": " ++ p.2.product_name

/-- The multi-line importance-score trace appended as one list element. -/
def importance_block (m : Metric) : String :=
  "Importance Score = (Total Quantity × 0.5) + (Total Spend × 0.5)"
    ++ "\n= (" ++ toString (pyInt m.total_quantity) ++ " × 0.5) + ("
    ++ fmt2 m.total_spend ++ " × 0.5)"
    ++ "\n= " ++ fmt2 (m.total_quantity * 0.5) ++ " + " ++ fmt2 (m.total_spend * 0.5)
    ++ "\n= " ++ fmt2 m.importance_score

/-- The response elements appended for one ranked product (source 206-237). -/
def product_block (t2 : Table) (p : ℕ × Metric) : List String :=
  [rank_line p,
   "Detailed Calculations:",
   "Individual Transactions:",
   format_transaction_details t2 p.2.product_id,
   "\nTotal Quantity Calculation:",
   "Total Quantity = " ++ toString (pyInt p.2.total_quantity) ++ " units",
   "\nTotal Spend Calculation:",
   "Total Spend = $" ++ fmtComma2 p.2.total_spend,
   "\nImportance Score Calculation:",
   importance_block p.2,
   "\nProduct Summary:",
   "- Total Quantity: " ++ toString (pyInt p.2.total_quantity) ++ " units",
   "- Total Spend: $" ++ fmtComma2 p.2.total_spend,
   "- Importance Score: " ++ fmt2 p.2.importance_score,
   "\n" ++ dashes50]

/-- The success-path response elements appended after the validation report
(source 185-243); `t2` is the coerced table, `pm` the metrics frame. -/
def success_parts (t2 : Table) (pm : List (ℕ × Metric)) : List String :=
  ["\nData validation successful! Proceeding with analysis...",
   "Formulas Used:",
   "1. Total Quantity Formula:",
   "   Total Quantity = ∑(quantity for each transaction)",
   "\n2. Total Spend Formula:",
   "   Total Spend = ∑(quantity × price_usd for each transaction)",
   "\n3. Importance Score Formula:",
   "   Importance Score = (Total Quantity × 0.5) + (Total Spend × 0.5)",
   "\nSummary:",
   "Total number of products analyzed: " ++ toString pm.length,
   "\nRanked List and Calculations:"]
  ++ (pm.map (product_block t2)).flatten
  ++ (if pm.length > 10
      then ["\nNote: All products are shown with full calculations for transparency."]
      else [])
  ++ ["\nWould you like detailed calculations for any specific product? Please rate this analysis from 1 to 5 stars."]

/-- The two fixed lines of the failure path (source 170-173). -/
def failure_tail : List String :=
  ["\nData validation failed. Please correct the errors above.",
   "Would you like a template for the data input?"]

/-- `generate_response` (source lines 155-244).  Exceptions escaping the
function surface as `Except.error`; a returned report is `Except.ok`.  The
coerced table produced by the in-place mutation of `validate_data_types` is
the one consumed by `calculate_metrics` and `format_transaction_details`. -/
def generate_response (inp : Input) : Except PyErr String :=
  match validate_data_format inp with
  | .error m => .ok (m ++ "\n\nWould you like a template for the data input?")
  | .ok df =>
    match format_validation_report df with
    | .error e => .error e
    | .ok validation_report =>
      if !(validate_required_fields df).1 || !(validate_data_types df).1 then
        .ok (String.intercalate "\n" (validation_report ++ failure_tail))
      else
        .ok (String.intercalate "\n" (validation_report ++
          success_parts (validate_data_types df).2.2
            (calculate_metrics (validate_data_types df).2.2)))

/-- The rank numbers printed by the success report, in print order. -/
def printedRanks (t : Table) : List ℕ :=
  (calculate_metrics t).map (fun p => p.1 + 1)

/-! ### Order facts about the string and key comparisons -/

theorem lexLtChars_trans :
    ∀ (a b c : List Char), lexLtChars a b = true → lexLtChars b c = true →
      lexLtChars a c = true := by
  intro a
  induction a with
  | nil =>
    intro b c hab hbc
    cases b with
    | nil => simp [lexLtChars] at hab
    | cons b0 bs =>
      cases c with
      | nil => simp [lexLtChars] at hbc
      | cons c0 cs => simp [lexLtChars]
  | cons a0 as ih =>
    intro b c hab hbc
    cases b with
    | nil => simp [lexLtChars] at hab
    | cons b0 bs =>
      cases c with
      | nil => simp [lexLtChars] at hbc
      | cons c0 cs =>
        simp only [lexLtChars] at hab hbc ⊢
        by_cases h1 : a0.toNat < b0.toNat
        · by_cases h2 : b0.toNat < c0.toNat
          · have h3 : a0.toNat < c0.toNat := h1.trans h2
            simp [h3]
          · by_cases h3 : c0.toNat < b0.toNat
            · rw [if_neg h2, if_pos h3] at hbc
              exact absurd hbc (by simp)
            · have he : b0.toNat = c0.toNat := le_antisymm (not_lt.mp h3) (not_lt.mp h2)
              have h4 : a0.toNat < c0.toNat := he ▸ h1
              simp [h4]
        · by_cases h4 : b0.toNat < a0.toNat
          · rw [if_neg h1, if_pos h4] at hab
            exact absurd hab (by simp)
          · have he : a0.toNat = b0.toNat := le_antisymm (not_lt.mp h4) (not_lt.mp h1)
            rw [if_neg h1, if_neg h4] at hab
            by_cases h2 : b0.toNat < c0.toNat
            · have h5 : a0.toNat < c0.toNat := he ▸ h2
              simp [h5]
            · by_cases h3 : c0.toNat < b0.toNat
              · rw [if_neg h2, if_pos h3] at hbc
                exact absurd hbc (by simp)
              · have he2 : b0.toNat = c0.toNat := le_antisymm (not_lt.mp h3) (not_lt.mp h2)
                rw [if_neg h2, if_neg h3] at hbc
                have hac : ¬ a0.toNat < c0.toNat := by omega
                have hca : ¬ c0.toNat < a0.toNat := by omega
                rw [if_neg hac, if_neg hca]
                exact ih bs cs hab hbc

theorem lexLtChars_eq_of_false :
    ∀ (a b : List Char), lexLtChars a b = false → lexLtChars b a = false → a = b := by
  intro a
  induction a with
  | nil =>
    intro b hab hba
    cases b with
    | nil => rfl
    | cons b0 bs => simp [lexLtChars] at hab
  | cons a0 as ih =>
    intro b hab hba
    cases b with
    | nil => simp [lexLtChars] at hba
    | cons b0 bs =>
      simp only [lexLtChars] at hab hba
      by_cases h1 : a0.toNat < b0.toNat
      · rw [if_pos h1] at hab
        exact absurd hab (by simp)
      · by_cases h2 : b0.toNat < a0.toNat
        · rw [if_pos h2] at hba
          exact absurd hba (by simp)
        · rw [if_neg h1, if_neg h2] at hab
          rw [if_neg h2, if_neg h1] at hba
          have he : a0.toNat = b0.toNat := le_antisymm (not_lt.mp h2) (not_lt.mp h1)
          have hc : a0 = b0 := by
            have := congrArg Char.ofNat he
            simpa [Char.ofNat_toNat] using this
          rw [hc, ih bs hab hba]

theorem strLt_trans {a b c : String} (h1 : strLt a b = true) (h2 : strLt b c = true) :
    strLt a c = true :=
  lexLtChars_trans a.data b.data c.data h1 h2

theorem strLt_eq_of_false {a b : String} (h1 : strLt a b = false) (h2 : strLt b a = false) :
    a = b := by
  have hd : a.data = b.data := lexLtChars_eq_of_false a.data b.data h1 h2
  cases a
  cases b
  exact congrArg String.mk hd

theorem keyLt_trans {a b c : String × String}
    (h1 : keyLt a b = true) (h2 : keyLt b c = true) : keyLt a c = true := by
  unfold keyLt at h1 h2 ⊢
  rcases Bool.or_eq_true_iff.mp h1 with h1l | h1r
  · rcases Bool.or_eq_true_iff.mp h2 with h2l | h2r
    · exact Bool.or_eq_true_iff.mpr (.inl (strLt_trans h1l h2l))
    · obtain ⟨hbc, _⟩ := Bool.and_eq_true_iff.mp h2r
      have hbc' : b.1 = c.1 := by simpa using hbc
      exact Bool.or_eq_true_iff.mpr (.inl (hbc' ▸ h1l))
  · obtain ⟨hab, ha2⟩ := Bool.and_eq_true_iff.mp h1r
    have hab' : a.1 = b.1 := by simpa using hab
    rcases Bool.or_eq_true_iff.mp h2 with h2l | h2r
    · exact Bool.or_eq_true_iff.mpr (.inl (hab' ▸ h2l))
    · obtain ⟨hbc, hb2⟩ := Bool.and_eq_true_iff.mp h2r
      have hbc' : b.1 = c.1 := by simpa using hbc
      refine Bool.or_eq_true_iff.mpr (.inr (Bool.and_eq_true_iff.mpr ⟨?_, ?_⟩))
      · simp [hab', hbc']
      · exact strLt_trans ha2 hb2

theorem keyLt_flip {a b : String × String} (hne : a ≠ b) (hab : keyLt a b = false) :
    keyLt b a = true := by
  unfold keyLt at hab ⊢
  have h1 : strLt a.1 b.1 = false := by
    rcases hs : strLt a.1 b.1 with _ | _
    · rfl
    · rw [hs] at hab
      simp at hab
  rw [h1] at hab
  simp only [Bool.false_or] at hab
  by_cases he : a.1 = b.1
  · have ha2 : strLt a.2 b.2 = false := by
      rcases hs : strLt a.2 b.2 with _ | _
      · rfl
      · rw [hs] at hab
        simp [he] at hab
    have hne2 : a.2 ≠ b.2 := by
      intro h2
      exact hne (Prod.ext he h2)
    have hb2 : strLt b.2 a.2 = true := by
      rcases hs : strLt b.2 a.2 with _ | _
      · exact absurd (strLt_eq_of_false ha2 hs) hne2
      · rfl
    refine Bool.or_eq_true_iff.mpr (.inr (Bool.and_eq_true_iff.mpr ⟨by simp [he], hb2⟩))
  · have hb1 : strLt b.1 a.1 = true := by
      rcases hs : strLt b.1 a.1 with _ | _
      · exact absurd (strLt_eq_of_false h1 hs) he
      · rfl
    exact Bool.or_eq_true_iff.mpr (.inl hb1)

/-! ### Membership and sortedness of the groupby key list -/

theorem mem_insertKey {z k : String × String} :
    ∀ {ks : List (String × String)}, z ∈ insertKey k ks → z = k ∨ z ∈ ks := by
  intro ks
  induction ks with
  | nil =>
    intro h
    simpa [insertKey] using h
  | cons x xs ih =>
    intro h
    simp only [insertKey] at h
    by_cases he : k = x
    · rw [if_pos he] at h
      exact .inr h
    · rw [if_neg he] at h
      by_cases hl : keyLt k x = true
      · rw [if_pos hl] at h
        rcases List.mem_cons.mp h with h1 | h1
        · exact .inl h1
        · exact .inr h1
      · rw [if_neg hl] at h
        rcases List.mem_cons.mp h with h1 | h1
        · exact .inr (h1 ▸ List.mem_cons_self x xs)
        · rcases ih h1 with h2 | h2
          · exact .inl h2
          · exact .inr (List.mem_cons_of_mem x h2)

theorem self_mem_insertKey {k : String × String} :
    ∀ (ks : List (String × String)), k ∈ insertKey k ks := by
  intro ks
  induction ks with
  | nil => simp [insertKey]
  | cons x xs ih =>
    simp only [insertKey]
    by_cases he : k = x
    · rw [if_pos he, he]
      exact List.mem_cons_self x xs
    · rw [if_neg he]
      by_cases hl : keyLt k x = true
      · rw [if_pos hl]
        exact List.mem_cons_self _ _
      · rw [if_neg hl]
        exact List.mem_cons_of_mem x ih

theorem mem_insertKey_of_mem {z k : String × String} :
    ∀ {ks : List (String × String)}, z ∈ ks → z ∈ insertKey k ks := by
  intro ks
  induction ks with
  | nil =>
    intro h
    exact absurd h (List.not_mem_nil z)
  | cons x xs ih =>
    intro h
    simp only [insertKey]
    by_cases he : k = x
    · rw [if_pos he]
      exact h
    · rw [if_neg he]
      by_cases hl : keyLt k x = true
      · rw [if_pos hl]
        exact List.mem_cons_of_mem k h
      · rw [if_neg hl]
        rcases List.mem_cons.mp h with h1 | h1
        · exact h1 ▸ List.mem_cons_self x _
        · exact List.mem_cons_of_mem x (ih h1)

theorem insertKey_pairwise {k : String × String} :
    ∀ {ks : List (String × String)},
      ks.Pairwise (fun a b => keyLt a b = true) →
      (insertKey k ks).Pairwise (fun a b => keyLt a b = true) := by
  intro ks
  induction ks with
  | nil =>
    intro _
    simp [insertKey]
  | cons x xs ih =>
    intro hp
    obtain ⟨hx, hxs⟩ := List.pairwise_cons.mp hp
    simp only [insertKey]
    by_cases he : k = x
    · rw [if_pos he]
      exact hp
    · rw [if_neg he]
      by_cases hl : keyLt k x = true
      · rw [if_pos hl]
        refine List.pairwise_cons.mpr ⟨?_, hp⟩
        intro z hz
        rcases List.mem_cons.mp hz with h1 | h1
        · exact h1 ▸ hl
        · exact keyLt_trans hl (hx z h1)
      · rw [if_neg hl]
        refine List.pairwise_cons.mpr ⟨?_, ih hxs⟩
        intro z hz
        rcases mem_insertKey hz with h1 | h1
        · exact h1 ▸ keyLt_flip he (Bool.eq_false_iff.mpr hl)
        · exact hx z h1

theorem foldl_insertKey_pairwise (rows : List Row) :
    ∀ (acc : List (String × String)),
      acc.Pairwise (fun a b => keyLt a b = true) →
      (rows.foldl (fun ks r => insertKey (rowKey r) ks) acc).Pairwise
        (fun a b => keyLt a b = true) := by
  induction rows with
  | nil =>
    intro acc h
    simpa using h
  | cons r rs ih =>
    intro acc h
    exact ih _ (insertKey_pairwise h)

theorem groupKeys_pairwise (t : Table) :
    (groupKeys t).Pairwise (fun a b => keyLt a b = true) :=
  foldl_insertKey_pairwise t.rows [] (List.Pairwise.nil)

theorem mem_foldl_insertKey (rows : List Row) :
    ∀ (acc : List (String × String)) (k : String × String), k ∈ acc →
      k ∈ rows.foldl (fun ks r => insertKey (rowKey r) ks) acc := by
  induction rows with
  | nil =>
    intro acc k h
    simpa using h
  | cons r rs ih =>
    intro acc k h
    exact ih _ k (mem_insertKey_of_mem h)

theorem rowKey_mem_groupKeys {t : Table} {r : Row} (h : r ∈ t.rows) :
    rowKey r ∈ groupKeys t := by
  unfold groupKeys
  revert h
  generalize ([] : List (String × String)) = acc
  revert acc
  induction t.rows with
  | nil =>
    intro acc h
    exact absurd h (List.not_mem_nil r)
  | cons x xs ih =>
    intro acc h
    rcases List.mem_cons.mp h with h1 | h1
    · subst h1
      exact mem_foldl_insertKey xs _ _ (self_mem_insertKey acc)
    · exact ih _ h1

/-! ### Membership and sortedness of the descending stable sort -/

theorem mem_insertDesc {z x : ℕ × Metric} :
    ∀ {l : List (ℕ × Metric)}, z ∈ insertDesc x l ↔ z = x ∨ z ∈ l := by
  intro l
  induction l with
  | nil => simp [insertDesc]
  | cons y ys ih =>
    simp only [insertDesc]
    by_cases hc : x.2.importance_score < y.2.importance_score
    · rw [if_pos hc]
      constructor
      · intro h
        rcases List.mem_cons.mp h with h1 | h1
        · exact .inr (h1 ▸ List.mem_cons_self y ys)
        · rcases ih.mp h1 with h2 | h2
          · exact .inl h2
          · exact .inr (List.mem_cons_of_mem y h2)
      · intro h
        rcases h with h1 | h1
        · exact List.mem_cons_of_mem y (ih.mpr (.inl h1))
        · rcases List.mem_cons.mp h1 with h2 | h2
          · exact h2 ▸ List.mem_cons_self y _
          · exact List.mem_cons_of_mem y (ih.mpr (.inr h2))
    · rw [if_neg hc]
      simp [List.mem_cons]

theorem mem_sortDesc {z : ℕ × Metric} :
    ∀ {l : List (ℕ × Metric)}, z ∈ sortDesc l ↔ z ∈ l := by
  intro l
  induction l with
  | nil => simp [sortDesc]
  | cons x xs ih =>
    show z ∈ insertDesc x (sortDesc xs) ↔ _
    rw [mem_insertDesc]
    simp [ih, List.mem_cons]

theorem insertDesc_pairwise (K : (ℕ × Metric) → (ℕ × Metric) → Prop)
    (x : ℕ × Metric) :
    ∀ {l : List (ℕ × Metric)},
      l.Pairwise (fun a b => b.2.importance_score ≤ a.2.importance_score ∧
        (a.2.importance_score = b.2.importance_score → K a b)) →
      (∀ y ∈ l, K x y) →
      (insertDesc x l).Pairwise (fun a b => b.2.importance_score ≤ a.2.importance_score ∧
        (a.2.importance_score = b.2.importance_score → K a b)) := by
  intro l
  induction l with
  | nil =>
    intro _ _
    simp [insertDesc]
  | cons y ys ih =>
    intro hp hK
    obtain ⟨hy, hys⟩ := List.pairwise_cons.mp hp
    simp only [insertDesc]
    by_cases hc : x.2.importance_score < y.2.importance_score
    · rw [if_pos hc]
      refine List.pairwise_cons.mpr ⟨?_, ih hys (fun z hz => hK z (List.mem_cons_of_mem y hz))⟩
      intro z hz
      rcases mem_insertDesc.mp hz with h1 | h1
      · subst h1
        exact ⟨le_of_lt hc, fun he => absurd he.symm (ne_of_lt hc)⟩
      · exact hy z h1
    · rw [if_neg hc]
      have hyx : y.2.importance_score ≤ x.2.importance_score := not_lt.mp hc
      refine List.pairwise_cons.mpr ⟨?_, hp⟩
      intro z hz
      rcases List.mem_cons.mp hz with h1 | h1
      · subst h1
        exact ⟨hyx, fun _ => hK z (List.mem_cons_self z ys)⟩
      · obtain ⟨hzy, _⟩ := hy z h1
        exact ⟨le_trans hzy hyx, fun _ => hK z (List.mem_cons_of_mem y h1)⟩

theorem sortDesc_pairwise (K : (ℕ × Metric) → (ℕ × Metric) → Prop) :
    ∀ {l : List (ℕ × Metric)}, l.Pairwise K →
      (sortDesc l).Pairwise (fun a b => b.2.importance_score ≤ a.2.importance_score ∧
        (a.2.importance_score = b.2.importance_score → K a b)) := by
  intro l
  induction l with
  | nil =>
    intro _
    simp [sortDesc]
  | cons x xs ih =>
    intro hp
    obtain ⟨hx, hxs⟩ := List.pairwise_cons.mp hp
    show (insertDesc x (sortDesc xs)).Pairwise _
    exact insertDesc_pairwise K x (ih hxs) (fun y hy => hx y (mem_sortDesc.mp hy))

/-! ### Enumeration lemmas -/

theorem snd_mem_of_mem_enumFrom {α : Type} {p : ℕ × α} :
    ∀ {l : List α} {n : ℕ}, p ∈ List.enumFrom n l → p.2 ∈ l := by
  intro l
  induction l with
  | nil =>
    intro n h
    simp at h
  | cons x xs ih =>
    intro n h
    rw [List.enumFrom_cons] at h
    rcases List.mem_cons.mp h with h1 | h1
    · rw [h1]
      exact List.mem_cons_self x xs
    · exact List.mem_cons_of_mem x (ih h1)

theorem exists_fst_mem_enumFrom {α : Type} {a : α} :
    ∀ {l : List α}, a ∈ l → ∀ (n : ℕ), ∃ i, (i, a) ∈ List.enumFrom n l := by
  intro l
  induction l with
  | nil =>
    intro h
    exact absurd h (List.not_mem_nil a)
  | cons x xs ih =>
    intro h n
    rcases List.mem_cons.mp h with h1 | h1
    · exact ⟨n, by rw [List.enumFrom_cons, h1]; exact List.mem_cons_self _ _⟩
    · obtain ⟨i, hi⟩ := ih h1 (n + 1)
      exact ⟨i, by rw [List.enumFrom_cons]; exact List.mem_cons_of_mem _ hi⟩

theorem pairwise_enumFrom {α : Type} {P : α → α → Prop} :
    ∀ {l : List α} (n : ℕ), l.Pairwise P →
      (List.enumFrom n l).Pairwise (fun x y => P x.2 y.2) := by
  intro l
  induction l with
  | nil =>
    intro n _
    simp
  | cons x xs ih =>
    intro n hp
    obtain ⟨hx, hxs⟩ := List.pairwise_cons.mp hp
    rw [List.enumFrom_cons]
    refine List.pairwise_cons.mpr ⟨?_, ih (n + 1) hxs⟩
    intro z hz
    exact hx z.2 (snd_mem_of_mem_enumFrom hz)

/-! ### Monotonicity of the rounding model -/

theorem round2_mono {x y : ℚ} (h : x ≤ y) : round2 x ≤ round2 y := by
  unfold round2
  have h1 : x * 100 + 1 / 2 ≤ y * 100 + 1 / 2 := by nlinarith
  have h2 : (⌊x * 100 + 1 / 2⌋ : ℤ) ≤ ⌊y * 100 + 1 / 2⌋ := Int.floor_le_floor h1
  have h3 : ((⌊x * 100 + 1 / 2⌋ : ℤ) : ℚ) ≤ ((⌊y * 100 + 1 / 2⌋ : ℤ) : ℚ) := by
    exact_mod_cast h2
  have h100 : (0 : ℚ) < 100 := by norm_num
  exact (div_le_div_iff_of_pos_right h100).mpr h3

/-! ### Concrete tables used by individual claims -/

/-- The parsed table of the CSV input
`transaction_id,customer_id,transaction_date,product_id,product_name,price_usd`
`TX1,C1,2025-03-01,P1,Widget,10` — a well-formed table whose header simply
lacks the `quantity` column.  (pandas has no quantity Series at all for it;
the unused `quantity` field of the model row is the null marker.) -/
def tblNoQuantity : Table :=
  { cols := ["transaction_id", "customer_id", "transaction_date",
             "product_id", "product_name", "price_usd"],
    rows := [{ transaction_id := "TX1", customer_id := "C1",
               transaction_date := "2025-03-01", date_ok := true,
               product_id := "P1", product_name := "Widget",
               quantity := .nan, price_usd := .num 10 }] }

/-- The parsed table of a CSV input consisting of exactly the header row with
all seven required columns and zero data rows. -/
def tblHeaderOnly : Table :=
  { cols := required_fields, rows := [] }

/-- C3: the spec says every failure is surfaced as report text and nothing is
fatal, but `generate_response` lets `format_validation_report` index
`df[quantity]` before field validation runs, so a parsed table without a
`quantity` column raises an uncaught `KeyError` instead of producing a
report. -/
theorem C3_missing_quantity_keyerror :
    generate_response (Input.csv (.ok tblNoQuantity)) = .error (.keyError "quantity") := rfl

/-- C7: for inputs not detected as CSV, a parsed JSON object lacking the
`transactions` key and a JSON decode failure produce exactly the two specified
messages, and `generate_response` returns a report that starts with the
message (followed only by the template offer), with no further processing. -/
theorem C7_format_error_messages :
    validate_data_format Input.jsonNoTrans =
      .error "ERROR: Invalid JSON structure. Must contain 'transactions' key." ∧
    validate_data_format Input.jsonDecodeError =
      .error "ERROR: Invalid data format. Please provide your data in CSV or JSON format." ∧
    (∃ rest, generate_response Input.jsonNoTrans =
      .ok ("ERROR: Invalid JSON structure. Must contain 'transactions' key." ++ rest)) ∧
    (∃ rest, generate_response Input.jsonDecodeError =
      .ok ("ERROR: Invalid data format. Please provide your data in CSV or JSON format." ++ rest)) :=
  ⟨rfl, rfl,
   ⟨"\n\nWould you like a template for the data input?", rfl⟩,
   ⟨"\n\nWould you like a template for the data input?", rfl⟩⟩

/-- C8: `generate_response` is a pure function of the parsed input — the
source reads no clock, randomness, or cross-call mutable state (the only
instance state is the fixed `required_fields` list) — so two invocations on
the same input produce byte-identical report text. -/
theorem C8_deterministic (inp : Input) :
    generate_response inp = generate_response inp := rfl

/-- C9: a header-only CSV with the seven required columns passes field
validation and (vacuously) type validation, and the success report is
produced with `Total number of products analyzed: 0` and an empty ranked
list. -/
theorem C9_header_only_csv :
    validate_required_fields tblHeaderOnly = (true, "Success") ∧
    (validate_data_types tblHeaderOnly).1 = true ∧
    calculate_metrics (validate_data_types tblHeaderOnly).2.2 = [] ∧
    "Total number of products analyzed: 0" ∈
      success_parts (validate_data_types tblHeaderOnly).2.2
        (calculate_metrics (validate_data_types tblHeaderOnly).2.2) ∧
    generate_response (Input.csv (.ok tblHeaderOnly)) =
      .ok (String.intercalate "\n" (validation_lines tblHeaderOnly ++
        success_parts (validate_data_types tblHeaderOnly).2.2
          (calculate_metrics (validate_data_types tblHeaderOnly).2.2))) := by
  refine ⟨rfl, rfl, rfl, by decide, rfl⟩

/-- C5: with both numeric columns present, `validate_data_types` fails iff some
row's coerced `quantity` or coerced `price_usd` is null-or-nonpositive; any bad
quantity yields the quantity-specific message even if prices are also bad, and
the price-specific message appears only when every quantity is valid. -/
theorem C5_type_validation_iff (t : Table)
    (hq : t.cols.contains "quantity" = true)
    (hp : t.cols.contains "price_usd" = true) :
    ((validate_data_types t).1 = false ↔
      ∃ r ∈ t.rows, badVal (coerceVal r.quantity) = true ∨
        badVal (coerceVal r.price_usd) = true) ∧
    ((∃ r ∈ t.rows, badVal (coerceVal r.quantity) = true) →
      (validate_data_types t).2.1 =
        "ERROR: Invalid value for field(s): quantity. Must be positive integer.") ∧
    ((∀ r ∈ t.rows, badVal (coerceVal r.quantity) = false) →
      (∃ r ∈ t.rows, badVal (coerceVal r.price_usd) = true) →
      (validate_data_types t).2.1 =
        "ERROR: Invalid value for field(s): price_usd. Must be positive number.") := by
  have hcols : (coerceQuantity t).cols.contains "price_usd" = true := hp
  have hqm : "quantity" ∈ t.cols := by simpa using hq
  have hpm : "price_usd" ∈ (coerceQuantity t).cols := by simpa using hcols
  have hqrw : ((coercePrice (coerceQuantity t)).rows.any fun r => badVal r.quantity)
      = t.rows.any fun r => badVal (coerceVal r.quantity) := by
    simp only [coercePrice, coerceQuantity, List.any_map]
    rfl
  have hprw : ((coercePrice (coerceQuantity t)).rows.any fun r => badVal r.price_usd)
      = t.rows.any fun r => badVal (coerceVal r.price_usd) := by
    simp only [coercePrice, coerceQuantity, List.any_map]
    rfl
  cases hbq : (t.rows.any fun r => badVal (coerceVal r.quantity)) with
  | true =>
    have hvt : validate_data_types t =
        (false, "ERROR: Invalid value for field(s): quantity. Must be positive integer.",
         coercePrice (coerceQuantity t)) := by
      unfold validate_data_types
      simp [hqm, hpm, hqrw, hbq]
    obtain ⟨r, hr, hbad⟩ := List.any_eq_true.mp hbq
    refine ⟨?_, fun _ => by rw [hvt], fun hall _ => ?_⟩
    · rw [hvt]
      simp only [true_iff]
      exact ⟨r, hr, .inl hbad⟩
    · exact absurd hbad (by simp [hall r hr])
  | false =>
    have hallq : ∀ r ∈ t.rows, badVal (coerceVal r.quantity) = false := by
      intro r hr
      have := List.any_eq_false.mp hbq r hr
      simpa using this
    cases hbp : (t.rows.any fun r => badVal (coerceVal r.price_usd)) with
    | true =>
      have hvt : validate_data_types t =
          (false, "ERROR: Invalid value for field(s): price_usd. Must be positive number.",
           coercePrice (coerceQuantity t)) := by
        unfold validate_data_types
        simp [hqm, hpm, hqrw, hprw, hbq, hbp]
      obtain ⟨r, hr, hbad⟩ := List.any_eq_true.mp hbp
      refine ⟨?_, fun hex => ?_, fun _ _ => by rw [hvt]⟩
      · rw [hvt]
        simp only [true_iff]
        exact ⟨r, hr, .inr hbad⟩
      · obtain ⟨r2, hr2, hbad2⟩ := hex
        exact absurd hbad2 (by simp [hallq r2 hr2])
    | false =>
      have hallp : ∀ r ∈ t.rows, badVal (coerceVal r.price_usd) = false := by
        intro r hr
        have := List.any_eq_false.mp hbp r hr
        simpa using this
      have hvt : validate_data_types t =
          (true, "Success", coercePrice (coerceQuantity t)) := by
        unfold validate_data_types
        simp [hqm, hpm, hqrw, hprw, hbq, hbp]
      refine ⟨?_, fun hex => ?_, fun _ hex => ?_⟩
      · rw [hvt]
        simp only [Bool.true_eq_false, false_iff]
        rintro ⟨r, hr, hbad | hbad⟩
        · exact absurd hbad (by simp [hallq r hr])
        · exact absurd hbad (by simp [hallp r hr])
      · obtain ⟨r, hr, hbad⟩ := hex
        exact absurd hbad (by simp [hallq r hr])
      · obtain ⟨r, hr, hbad⟩ := hex
        exact absurd hbad (by simp [hallp r hr])

/-- The table of a CSV input whose first row has `quantity = -1` (invalid) and
second row has `price_usd = 0` (also invalid): both columns contain a bad
value, so the quantity message must win. -/
def tblBothBad : Table :=
  { cols := required_fields,
    rows := [{ transaction_id := "TX1", customer_id := "C1",
               transaction_date := "2025-03-01", date_ok := true,
               product_id := "P1", product_name := "Widget",
               quantity := .num (-1), price_usd := .num 10 },
             { transaction_id := "TX2", customer_id := "C2",
               transaction_date := "2025-03-02", date_ok := true,
               product_id := "P2", product_name := "Gadget",
               quantity := .num 2, price_usd := .num 0 }] }

/-- Witness for `C5_type_validation_iff` at `tblBothBad`. -/
theorem C5_type_validation_iff_witness :
    (tblBothBad.cols.contains "quantity" = true ∧
     tblBothBad.cols.contains "price_usd" = true ∧
     (validate_data_types tblBothBad).1 = false ∧
     (∃ r ∈ tblBothBad.rows, badVal (coerceVal r.quantity) = true) ∧
     (∃ r ∈ tblBothBad.rows, badVal (coerceVal r.price_usd) = true)) ∧
    (validate_data_types tblBothBad).2.1 =
      "ERROR: Invalid value for field(s): quantity. Must be positive integer." :=
  ⟨by decide,
   (C5_type_validation_iff tblBothBad (by decide) (by decide)).2.1 (by decide)⟩

/-- Every row's `(product_id, product_name)` pair appears among the group keys
of the final metrics frame. -/
theorem key_mem_calculate_metrics {t : Table} {r : Row} (h : r ∈ t.rows) :
    (r.product_id, r.product_name) ∈
      (calculate_metrics t).map (fun p => (p.2.product_id, p.2.product_name)) := by
  have hk : rowKey r ∈ groupKeys t := rowKey_mem_groupKeys h
  have h1 : metricFor t (rowKey r) ∈ (groupKeys t).map (metricFor t) :=
    List.mem_map.mpr ⟨rowKey r, hk, rfl⟩
  obtain ⟨i, hi⟩ := exists_fst_mem_enumFrom h1 0
  have h2 : (i, metricFor t (rowKey r)) ∈ rankedRaw t := by
    unfold rankedRaw
    exact mem_sortDesc.mpr hi
  have h3 : roundEntry (i, metricFor t (rowKey r)) ∈ calculate_metrics t :=
    List.mem_map.mpr ⟨_, h2, rfl⟩
  exact List.mem_map.mpr ⟨_, h3, rfl⟩

/-- C10: the per-product transaction listing is selected by `product_id` alone
(`df[df[product_id] == product_id]`), not by the `(product_id, product_name)`
pair used for grouping: when one `product_id` occurs under two distinct
product names, both pairs become groups of the ranked frame, yet the row set
listed for that `product_id` contains both groups' transactions. -/
theorem C10_txns_by_product_id (t : Table) (r₁ r₂ : Row)
    (h₁ : r₁ ∈ t.rows) (h₂ : r₂ ∈ t.rows)
    (hpid : r₁.product_id = r₂.product_id)
    (hname : r₁.product_name ≠ r₂.product_name) :
    ((r₁.product_id, r₁.product_name) ∈
        (calculate_metrics t).map (fun p => (p.2.product_id, p.2.product_name))) ∧
    ((r₂.product_id, r₂.product_name) ∈
        (calculate_metrics t).map (fun p => (p.2.product_id, p.2.product_name))) ∧
    (r₁.product_id, r₁.product_name) ≠ (r₂.product_id, r₂.product_name) ∧
    r₁ ∈ txnRows t r₁.product_id ∧
    r₂ ∈ txnRows t r₁.product_id ∧
    txn_line r₂ ∈ (txnRows t r₁.product_id).map txn_line := by
  refine ⟨key_mem_calculate_metrics h₁, key_mem_calculate_metrics h₂, ?_, ?_, ?_, ?_⟩
  · intro hpair
    exact hname (congrArg Prod.snd hpair)
  · exact List.mem_filter.mpr ⟨h₁, by simp⟩
  · exact List.mem_filter.mpr ⟨h₂, by simp [hpid]⟩
  · exact List.mem_map.mpr ⟨r₂, List.mem_filter.mpr ⟨h₂, by simp [hpid]⟩, rfl⟩

/-- First row of the C10 witness table: product `P1` named `Alpha`. -/
def c10RowA : Row :=
  { transaction_id := "TX1", customer_id := "C1",
    transaction_date := "2025-03-01", date_ok := true,
    product_id := "P1", product_name := "Alpha",
    quantity := .num 2, price_usd := .num 10 }

/-- Second row of the C10 witness table: the same product id `P1` under the
distinct name `Beta`. -/
def c10RowB : Row :=
  { transaction_id := "TX2", customer_id := "C2",
    transaction_date := "2025-03-02", date_ok := true,
    product_id := "P1", product_name := "Beta",
    quantity := .num 3, price_usd := .num 20 }

/-- A validated table in which product id `P1` occurs under two names. -/
def tblSharedId : Table :=
  { cols := required_fields, rows := [c10RowA, c10RowB] }

/-- Witness for `C10_txns_by_product_id` at `tblSharedId`. -/
theorem C10_txns_by_product_id_witness :
    (c10RowA ∈ tblSharedId.rows ∧ c10RowB ∈ tblSharedId.rows ∧
     c10RowA.product_id = c10RowB.product_id ∧
     c10RowA.product_name ≠ c10RowB.product_name) ∧
    (((c10RowA.product_id, c10RowA.product_name) ∈
        (calculate_metrics tblSharedId).map (fun p => (p.2.product_id, p.2.product_name))) ∧
     ((c10RowB.product_id, c10RowB.product_name) ∈
        (calculate_metrics tblSharedId).map (fun p => (p.2.product_id, p.2.product_name))) ∧
     (c10RowA.product_id, c10RowA.product_name) ≠ (c10RowB.product_id, c10RowB.product_name) ∧
     c10RowA ∈ txnRows tblSharedId c10RowA.product_id ∧
     c10RowB ∈ txnRows tblSharedId c10RowA.product_id ∧
     txn_line c10RowB ∈ (txnRows tblSharedId c10RowA.product_id).map txn_line) :=
  ⟨by decide,
   C10_txns_by_product_id tblSharedId c10RowA c10RowB
     (by decide) (by decide) (by decide) (by decide)⟩

/-- C4: every row of the final metrics frame carries, for its own
`(product_id, product_name)` group, `total_spend` equal to the rounded sum of
the per-row products `quantity × price_usd` over exactly that group's rows,
and `importance_score` equal to `0.5·total_quantity + 0.5·total_spend`
computed on the unrounded sums, with rounding applied after all arithmetic. -/
theorem C4_group_sums (t : Table) (p : ℕ × Metric) (hp : p ∈ calculate_metrics t) :
    p.2.total_spend = round2 (spendSum t p.2.product_id p.2.product_name) ∧
    p.2.importance_score =
      round2 (qtySum t p.2.product_id p.2.product_name * 0.5 +
        spendSum t p.2.product_id p.2.product_name * 0.5) := by
  obtain ⟨q, hq, hqe⟩ := List.mem_map.mp hp
  have hq2 : q ∈ List.enum ((groupKeys t).map (metricFor t)) := mem_sortDesc.mp hq
  have hq3 : q.2 ∈ (groupKeys t).map (metricFor t) := snd_mem_of_mem_enumFrom hq2
  obtain ⟨k, _, hke⟩ := List.mem_map.mp hq3
  obtain ⟨i, m⟩ := q
  have hke2 : metricFor t k = m := hke
  subst hke2
  subst hqe
  exact ⟨rfl, rfl⟩

/-- A one-transaction validated table for the C4 witness. -/
def tblC4 : Table :=
  { cols := required_fields,
    rows := [{ transaction_id := "TX1", customer_id := "C1",
               transaction_date := "2025-03-01", date_ok := true,
               product_id := "P1", product_name := "Widget",
               quantity := .num 2, price_usd := .num 25 }] }

/-- The single metrics row the code computes for `tblC4`:
quantity 2, spend 2 × 25 = 50, score 0.5·2 + 0.5·50 = 26. -/
def mC4 : Metric :=
  { product_id := "P1", product_name := "Widget",
    total_quantity := 2, total_spend := 50, importance_score := 26 }

/-- Witness for `C4_group_sums` at `tblC4`. -/
theorem C4_group_sums_witness :
    ((0, mC4) ∈ calculate_metrics tblC4) ∧
    (mC4.total_spend = round2 (spendSum tblC4 mC4.product_id mC4.product_name) ∧
     mC4.importance_score =
       round2 (qtySum tblC4 mC4.product_id mC4.product_name * 0.5 +
         spendSum tblC4 mC4.product_id mC4.product_name * 0.5)) := by
  have heval : calculate_metrics tblC4 = [(0, mC4)] := by
    norm_num [calculate_metrics, rankedRaw, groupKeys, insertKey, metricFor, qtySum,
      spendSum, rowKey, sortDesc, insertDesc, roundEntry, round2, tblC4, mC4, qVal,
      List.filter, List.enum, List.enumFrom]
  have hmem : (0, mC4) ∈ calculate_metrics tblC4 := by
    rw [heval]
    exact List.mem_cons_self _ _
  exact ⟨hmem, C4_group_sums tblC4 (0, mC4) hmem⟩

/-- Modelled from the spec: the `(product_id, product_name)` pairs in the order
their groups are first encountered in the input rows — the tie order the spec
claims the ranking preserves.  (The code orders groups differently, via
`groupby`'s ascending key sort; this definition exists to compare the two.) -/
def firstEncounterKeys (t : Table) : List (String × String) :=
  t.rows.foldl (fun ks r => if rowKey r ∈ ks then ks else ks ++ [rowKey r]) []

/-- C2 (amended): the metrics frame is sorted non-increasing in
`importance_score`; rows of the unrounded sorted frame with equal scores appear
in ascending lexicographic `(product_id, product_name)` order — the `groupby`
key order — not in first-encounter order. -/
theorem C2_rank_order_amended (t : Table) :
    (calculate_metrics t).Pairwise
      (fun a b => b.2.importance_score ≤ a.2.importance_score) ∧
    (rankedRaw t).Pairwise
      (fun a b => b.2.importance_score ≤ a.2.importance_score ∧
        (a.2.importance_score = b.2.importance_score →
          keyLt (a.2.product_id, a.2.product_name)
            (b.2.product_id, b.2.product_name) = true)) := by
  have hkeys : (groupKeys t).Pairwise (fun a b => keyLt a b = true) := groupKeys_pairwise t
  have hmapped : ((groupKeys t).map (metricFor t)).Pairwise
      (fun a b => keyLt (a.product_id, a.product_name) (b.product_id, b.product_name) = true) :=
    List.Pairwise.map (metricFor t) (fun _ _ h => h) hkeys
  have henum : (List.enum ((groupKeys t).map (metricFor t))).Pairwise
      (fun a b => keyLt (a.2.product_id, a.2.product_name)
        (b.2.product_id, b.2.product_name) = true) :=
    pairwise_enumFrom 0 hmapped
  have hranked : (rankedRaw t).Pairwise
      (fun a b => b.2.importance_score ≤ a.2.importance_score ∧
        (a.2.importance_score = b.2.importance_score →
          keyLt (a.2.product_id, a.2.product_name)
            (b.2.product_id, b.2.product_name) = true)) :=
    sortDesc_pairwise _ henum
  refine ⟨?_, hranked⟩
  exact List.Pairwise.map roundEntry (fun a b h => round2_mono h.1) hranked

/-- The tie table: two products with identical quantities and prices, the
lexicographically larger key `(P2, Beta)` encountered first. -/
def tblTie : Table :=
  { cols := required_fields,
    rows := [{ transaction_id := "TX1", customer_id := "C1",
               transaction_date := "2025-03-01", date_ok := true,
               product_id := "P2", product_name := "Beta",
               quantity := .num 2, price_usd := .num 25 },
             { transaction_id := "TX2", customer_id := "C2",
               transaction_date := "2025-03-02", date_ok := true,
               product_id := "P1", product_name := "Alpha",
               quantity := .num 2, price_usd := .num 25 }] }

/-- C2 counterexample: on `tblTie` both groups score exactly 26, yet the
ranked frame lists `(P1, Alpha)` before `(P2, Beta)` while the groups were
first encountered in the opposite order — equal-score ties do not appear in
group-encounter order. -/
theorem C2_counterexample :
    ((calculate_metrics tblTie).map (fun p => p.2.importance_score) = [26, 26]) ∧
    ((calculate_metrics tblTie).map (fun p => (p.2.product_id, p.2.product_name)) =
      [("P1", "Alpha"), ("P2", "Beta")]) ∧
    firstEncounterKeys tblTie = [("P2", "Beta"), ("P1", "Alpha")] ∧
    ((calculate_metrics tblTie).map (fun p => (p.2.product_id, p.2.product_name)) ≠
      firstEncounterKeys tblTie) := by
  have heval : calculate_metrics tblTie =
      [(0, { product_id := "P1", product_name := "Alpha",
             total_quantity := 2, total_spend := 50, importance_score := 26 }),
       (1, { product_id := "P2", product_name := "Beta",
             total_quantity := 2, total_spend := 50, importance_score := 26 })] := by
    have hne1 : ("P2" : String) ≠ "P1" := by decide
    have hne2 : ("Beta" : String) ≠ "Alpha" := by decide
    have hne3 : ("P1" : String) ≠ "P2" := by decide
    have hne4 : ("Alpha" : String) ≠ "Beta" := by decide
    norm_num [hne1, hne2, hne3, hne4, calculate_metrics, rankedRaw, groupKeys, insertKey, metricFor, qtySum,
      spendSum, rowKey, keyLt, strLt, lexLtChars, sortDesc, insertDesc, roundEntry,
      round2, tblTie, qVal, List.filter_cons, List.filter_nil, List.enum, List.enumFrom]
  refine ⟨by rw [heval]; rfl, by rw [heval]; rfl, by decide, ?_⟩
  rw [heval]
  decide

/-- A validated two-product table on which the importance ranking disagrees
with the groupby key order: `(P1, Widget)` scores 26 and `(P2, Gadget)` scores
102, so the ranked frame lists `Gadget` first. -/
def tblRank : Table :=
  { cols := required_fields,
    rows := [{ transaction_id := "TX1", customer_id := "C1",
               transaction_date := "2025-03-01", date_ok := true,
               product_id := "P1", product_name := "Widget",
               quantity := .num 2, price_usd := .num 25 },
             { transaction_id := "TX2", customer_id := "C2",
               transaction_date := "2025-03-02", date_ok := true,
               product_id := "P2", product_name := "Gadget",
               quantity := .num 4, price_usd := .num 50 }] }

/-- C1 (code bug): the rank number printed for each product is
`pandas index label + 1` — the label assigned by `reset_index()` in groupby
key order and kept through `sort_values` — not the 1-based position in the
score-sorted sequence.  On `tblRank` the report's first (highest-scoring)
product is printed as `Rank 2` and the second as `Rank 1`. -/
theorem C1_rank_labels_not_positions :
    ((calculate_metrics tblRank).map (fun p => p.2.importance_score) = [102, 26]) ∧
    ((calculate_metrics tblRank).map rank_line =
      ["\nRank 2: Gadget", "\nRank 1: Widget"]) ∧
    printedRanks tblRank = [2, 1] ∧
    printedRanks tblRank ≠ [1, 2] := by
  have hne1 : ("P2" : String) ≠ "P1" := by decide
  have hne2 : ("Gadget" : String) ≠ "Widget" := by decide
  have hne3 : ("P1" : String) ≠ "P2" := by decide
  have hne4 : ("Widget" : String) ≠ "Gadget" := by decide
  have heval : calculate_metrics tblRank =
      [(1, { product_id := "P2", product_name := "Gadget",
             total_quantity := 4, total_spend := 200, importance_score := 102 }),
       (0, { product_id := "P1", product_name := "Widget",
             total_quantity := 2, total_spend := 50, importance_score := 26 })] := by
    norm_num [hne1, hne2, hne3, hne4, calculate_metrics, rankedRaw, groupKeys,
      insertKey, metricFor, qtySum, spendSum, rowKey, keyLt, strLt, lexLtChars,
      sortDesc, insertDesc, roundEntry, round2, tblRank, qVal,
      List.filter_cons, List.filter_nil, List.enum, List.enumFrom]
  refine ⟨by rw [heval]; rfl, by rw [heval]; rfl, ?_, ?_⟩
  · show (calculate_metrics tblRank).map (fun p => p.1 + 1) = [2, 1]
    rw [heval]
    rfl
  · show (calculate_metrics tblRank).map (fun p => p.1 + 1) ≠ [1, 2]
    rw [heval]
    decide

/-- C6: for any parsed table that passes field validation and whose quantity
and price cells are all valid positive numbers, `generate_response` renders
the full success report even when some `transaction_date` value fails to
parse: the date check only changes the structural report's date line (to
`✗ Invalid date format found`) and never gates the success path. -/
theorem C6_date_never_gates (inp : Input) (t : Table)
    (hinp : validate_data_format inp = .ok t)
    (hq : t.cols.contains "quantity" = true)
    (hp : t.cols.contains "price_usd" = true)
    (hf : ∀ f ∈ required_fields,
      (t.cols.map (fun c => pyStrip (pyLower c))).contains (pyLower f) = true)
    (hvalid : ∀ r ∈ t.rows,
      (∃ q : ℚ, r.quantity = .num q ∧ 0 < q) ∧
      (∃ p : ℚ, r.price_usd = .num p ∧ 0 < p))
    (hdate : ∃ r ∈ t.rows, r.date_ok = false) :
    format_validation_report t = .ok (validation_lines t) ∧
    "   - Date format: ✗ Invalid date format found" ∈ validation_lines t ∧
    generate_response inp = .ok (String.intercalate "\n" (validation_lines t ++
      success_parts (validate_data_types t).2.2
        (calculate_metrics (validate_data_types t).2.2))) := by
  have hqm : "quantity" ∈ t.cols := by simpa using hq
  have hpm : "price_usd" ∈ t.cols := by simpa using hp
  have hpm2 : "price_usd" ∈ (coerceQuantity t).cols := hpm
  have hstrq : (t.rows.any fun r => isStrVal r.quantity) = false := by
    refine List.any_eq_false.mpr ?_
    intro r hr
    obtain ⟨⟨q, hq', _⟩, _⟩ := hvalid r hr
    rw [hq']
    simp [isStrVal]
  have hstrp : (t.rows.any fun r => isStrVal r.price_usd) = false := by
    refine List.any_eq_false.mpr ?_
    intro r hr
    obtain ⟨_, ⟨p, hp', _⟩⟩ := hvalid r hr
    rw [hp']
    simp [isStrVal]
  have hfvr : format_validation_report t = .ok (validation_lines t) := by
    unfold format_validation_report
    simp [hqm, hpm, hstrq, hstrp]
  have hdl : date_status t = "✗ Invalid date format found" := by
    obtain ⟨r, hr, hfalse⟩ := hdate
    have hall : (t.rows.all fun r => r.date_ok) = false :=
      List.all_eq_false.mpr ⟨r, hr, by simp [hfalse]⟩
    simp [date_status, hall]
  have hmem : "   - Date format: ✗ Invalid date format found" ∈ validation_lines t := by
    unfold validation_lines
    rw [hdl]
    simp
  have hmiss : required_fields.filter
      (fun f => !((t.cols.map (fun c => pyStrip (pyLower c))).contains (pyLower f))) = [] := by
    refine List.filter_eq_nil_iff.mpr ?_
    intro f hf'
    simpa using hf f hf'
  have hfields : validate_required_fields t = (true, "Success") := by
    unfold validate_required_fields
    rw [hmiss]
    rfl
  have hbq : ((coercePrice (coerceQuantity t)).rows.any fun r => badVal r.quantity) = false := by
    have hrw : ((coercePrice (coerceQuantity t)).rows.any fun r => badVal r.quantity)
        = t.rows.any fun r => badVal (coerceVal r.quantity) := by
      simp only [coercePrice, coerceQuantity, List.any_map]
      rfl
    rw [hrw]
    refine List.any_eq_false.mpr ?_
    intro r hr
    obtain ⟨⟨q, hq', hpos⟩, _⟩ := hvalid r hr
    rw [hq']
    simp [coerceVal, badVal]
    linarith
  have hbp : ((coercePrice (coerceQuantity t)).rows.any fun r => badVal r.price_usd) = false := by
    have hrw : ((coercePrice (coerceQuantity t)).rows.any fun r => badVal r.price_usd)
        = t.rows.any fun r => badVal (coerceVal r.price_usd) := by
      simp only [coercePrice, coerceQuantity, List.any_map]
      rfl
    rw [hrw]
    refine List.any_eq_false.mpr ?_
    intro r hr
    obtain ⟨_, ⟨p, hp', hpos⟩⟩ := hvalid r hr
    rw [hp']
    simp [coerceVal, badVal]
    linarith
  have hvt : validate_data_types t = (true, "Success", coercePrice (coerceQuantity t)) := by
    unfold validate_data_types
    simp [hqm, hpm2, hbq, hbp]
  refine ⟨hfvr, hmem, ?_⟩
  unfold generate_response
  rw [hinp]
  simp [hfvr, hfields, hvt]

/-- The single row of the C6 witness table: valid quantity and price, but a
`transaction_date` value that `pd.to_datetime` cannot parse. -/
def c6Row : Row :=
  { transaction_id := "TX1", customer_id := "C1",
    transaction_date := "not-a-date", date_ok := false,
    product_id := "P1", product_name := "Widget",
    quantity := .num 2, price_usd := .num 10 }

/-- A table that passes field and type validation while its only row has an
unparseable date. -/
def tblC6 : Table :=
  { cols := required_fields, rows := [c6Row] }

/-- Witness for `C6_date_never_gates` at `tblC6`. -/
theorem C6_date_never_gates_witness :
    (validate_data_format (Input.csv (.ok tblC6)) = .ok tblC6 ∧
     (∃ r ∈ tblC6.rows, r.date_ok = false)) ∧
    (format_validation_report tblC6 = .ok (validation_lines tblC6) ∧
     "   - Date format: ✗ Invalid date format found" ∈ validation_lines tblC6 ∧
     generate_response (Input.csv (.ok tblC6)) =
       .ok (String.intercalate "\n" (validation_lines tblC6 ++
         success_parts (validate_data_types tblC6).2.2
           (calculate_metrics (validate_data_types tblC6).2.2)))) :=
  ⟨⟨rfl, ⟨c6Row, by decide, rfl⟩⟩,
   C6_date_never_gates (Input.csv (.ok tblC6)) tblC6 rfl (by decide) (by decide)
     (by decide)
     (by
       intro r hr
       have hr2 : r = c6Row := List.mem_singleton.mp hr
       subst hr2
       exact ⟨⟨2, rfl, by norm_num⟩, ⟨10, rfl, by norm_num⟩⟩)
     ⟨c6Row, List.mem_singleton.mpr rfl, rfl⟩⟩
